import Mathlib

set_option autoImplicit false

/-!
Shallow embedding of the grading-scale engine of graca
(src/model/scale.rs, src/model/mod.rs, src/model/students.rs).

Rust f64 point values are modelled as exact rationals; for the percentage
tables and point totals involved here the f64 computations of the source
round to the same values.  `f64::round` (round to nearest, ties away from
zero) is modelled by `rround`.
-/

/-- The `Grade` enum of scale.rs.  Declaration order (best to worst) gives
the derived `Ord` instance used as the key order of the thresholds
BTreeMap. -/
inductive Grade : Type
  | VeryGood
  | Good
  | Satisfactory
  | Sufficient
  | Poor
  | Fail
  deriving DecidableEq, Repr, Fintype

namespace Grade

/-- `Grade::to_number` (scale.rs). -/
def to_number : Grade → ℕ
  | .VeryGood => 1
  | .Good => 2
  | .Satisfactory => 3
  | .Sufficient => 4
  | .Poor => 5
  | .Fail => 6

end Grade

/-- Rust `f64::round`: round to the nearest integer, ties away from zero. -/
def rround (x : ℚ) : ℤ :=
  if 0 ≤ x then ⌊x + 1/2⌋ else -⌊-x + 1/2⌋

/-- `round_dp` (scale.rs): round to `dp` decimal places. -/
def round_dp (value : ℚ) (dp : ℕ) : ℚ :=
  (rround (value * 10 ^ dp) : ℚ) / 10 ^ dp

/-- `IHK_BOUNDARIES` (scale.rs).  The source keys the six entries by the
grade numbers 1..6; we model the array as a total function on `Grade`. -/
def IHK_BOUNDARIES : Grade → ℚ
  | .VeryGood => 92/100
  | .Good => 81/100
  | .Satisfactory => 67/100
  | .Sufficient => 50/100
  | .Poor => 30/100
  | .Fail => 0

/-- `TECHNIKER_BOUNDARIES` (scale.rs). -/
def TECHNIKER_BOUNDARIES : Grade → ℚ
  | .VeryGood => 85/100
  | .Good => 70/100
  | .Satisfactory => 55/100
  | .Sufficient => 40/100
  | .Poor => 20/100
  | .Fail => 0

/-- `LINEAR_BOUNDARIES` (scale.rs). -/
def LINEAR_BOUNDARIES : Grade → ℚ
  | .VeryGood => 87/100
  | .Good => 60/100
  | .Satisfactory => 47/100
  | .Sufficient => 30/100
  | .Poor => 17/100
  | .Fail => 0

/-- `GradeScaleType` (scale.rs); the `Custom` payload `[(u8, f64); 6]`
is modelled as a total function on `Grade`. -/
inductive GradeScaleType : Type
  | IHK
  | TECHNIKER
  | LINEAR
  | Custom (values : Grade → ℚ)

namespace GradeScaleType

/-- `GradeScaleType::values` (scale.rs). -/
def values : GradeScaleType → Grade → ℚ
  | .IHK => IHK_BOUNDARIES
  | .TECHNIKER => TECHNIKER_BOUNDARIES
  | .LINEAR => LINEAR_BOUNDARIES
  | .Custom v => v

/-- `GradeScaleType::is_custom` (scale.rs). -/
def is_custom : GradeScaleType → Bool
  | .Custom _ => true
  | _ => false

/-- `GradeScaleType::to_custom` (scale.rs). -/
def to_custom (t : GradeScaleType) : GradeScaleType :=
  Custom t.values

/-- A standard (named, non-custom) kind: IHK, TECHNIKER or LINEAR. -/
def is_standard : GradeScaleType → Bool
  | .IHK => true
  | .TECHNIKER => true
  | .LINEAR => true
  | .Custom _ => false

end GradeScaleType

/-- `GradingScale` (scale.rs).  The thresholds BTreeMap holds exactly the
six grades in every reachable state (it is built from a six-entry boundary
table and only existing entries are ever updated), so it is modelled as a
total function on `Grade`. -/
structure GradingScale : Type where
  scale_type : GradeScaleType
  total_points : ℚ
  thresholds : Grade → ℚ
  use_half_points : Bool

namespace GradingScale

/-- `GradingScale::calculate_thresholds` (scale.rs); the source always
returns `Ok`. -/
def calculate_thresholds (scale_type : GradeScaleType) (max_points : ℚ) :
    Grade → ℚ :=
  fun grade => (rround (scale_type.values grade * max_points) : ℚ)

/-- `GradingScale::from_type` (scale.rs): `Err(InvalidPoints)` iff
`max_points <= 0`, modelled as `none`. -/
def from_type (scale_type : GradeScaleType) (max_points : ℚ) :
    Option GradingScale :=
  if max_points ≤ 0 then none
  else
    some
      { scale_type := scale_type
        total_points := max_points
        thresholds := calculate_thresholds scale_type max_points
        use_half_points := false }

/-- `GradingScale::is_using_half_points` (scale.rs). -/
def is_using_half_points (s : GradingScale) : Bool :=
  s.use_half_points

/-- `GradingScale::recalculate` (scale.rs); `calculate_thresholds` always
succeeds, so the thresholds are always replaced. -/
def recalculate (s : GradingScale) : GradingScale :=
  { s with thresholds := calculate_thresholds s.scale_type s.total_points }

/-- `GradingScale::set_total_points` (scale.rs); mod.rs calls this
`set_max_points`. -/
def set_total_points (s : GradingScale) (total : ℚ) : GradingScale :=
  recalculate { s with total_points := total }

/-- `GradingScale::toggle_half_points` (scale.rs). -/
def toggle_half_points (s : GradingScale) : GradingScale :=
  recalculate { s with use_half_points := !s.use_half_points }

/-- `GradingScale::change_scale_type` (scale.rs). -/
def change_scale_type (s : GradingScale) (scale_type : GradeScaleType) :
    GradingScale :=
  recalculate { s with scale_type := scale_type }

/-- `GradingScale::update_points_for_grade` (scale.rs).  The lookup of
`grade` always succeeds (all six grades are in the map), so the `Err`
branch is unreachable and the new state is returned directly. -/
def update_points_for_grade (s : GradingScale) (grade : Grade)
    (new_points : ℚ) : GradingScale :=
  { s with
    scale_type :=
      if s.scale_type.is_custom then s.scale_type else s.scale_type.to_custom
    thresholds := fun g =>
      if g = grade then (rround new_points : ℚ) else s.thresholds g }

/-- `GradingScale::increment_points_for_grade` (scale.rs). -/
def increment_points_for_grade (s : GradingScale) (grade : Grade) :
    GradingScale :=
  let points := s.thresholds grade
  let new_points :=
    if s.is_using_half_points then points + 1/2 else points + 1
  s.update_points_for_grade grade new_points

/-- `GradingScale::decrement_points_for_grade` (scale.rs). -/
def decrement_points_for_grade (s : GradingScale) (grade : Grade) :
    GradingScale :=
  let points := s.thresholds grade
  let new_points :=
    if s.is_using_half_points then points - 1/2 else points - 1
  s.update_points_for_grade grade new_points

/-- The key order in which the thresholds BTreeMap is iterated
(best grade first, by the derived `Ord` of `Grade`). -/
def gradeOrder : List Grade :=
  [.VeryGood, .Good, .Satisfactory, .Sufficient, .Poor, .Fail]

/-- `GradingScale::grade_for_points` (scale.rs): the first grade, in map
order, whose threshold the points strictly exceed. -/
def grade_for_points (s : GradingScale) (points : ℚ) : Option Grade :=
  gradeOrder.find? fun g => decide (s.thresholds g < points)

/-- `GradingScale::percentage_for_points` (scale.rs). -/
def percentage_for_points (points total : ℚ) : ℚ :=
  round_dp (points / total) 2

end GradingScale

/-- The fresh scale `GradingScale::from_type(GradeScaleType::IHK, 100.0)`
that `Model::new` (mod.rs) builds. -/
def ihk100 : GradingScale :=
  { scale_type := .IHK
    total_points := 100
    thresholds := GradingScale.calculate_thresholds .IHK 100
    use_half_points := false }

theorem from_type_ihk100 : GradingScale.from_type .IHK 100 = some ihk100 := by
  rw [GradingScale.from_type, if_neg (by norm_num)]
  rfl

/-- C1: on the IHK scale at 100 points the thresholds are
{1:92, 2:81, 3:67, 4:50, 5:30, 6:0}, and a point value equal to a grade's
threshold is mapped to the next worse grade, because `grade_for_points`
keeps only grades whose threshold is strictly exceeded; in particular 81
points give Grade 3 (Satisfactory), not Grade 2. -/
theorem C1_threshold_boundary_maps_to_next_worse_grade :
    (∀ g : Grade, ihk100.thresholds g =
      (match g with
        | .VeryGood => (92 : ℚ)
        | .Good => 81
        | .Satisfactory => 67
        | .Sufficient => 50
        | .Poor => 30
        | .Fail => 0)) ∧
    ihk100.grade_for_points 92 = some .Good ∧
    ihk100.grade_for_points 81 = some .Satisfactory ∧
    ihk100.grade_for_points 67 = some .Sufficient ∧
    ihk100.grade_for_points 50 = some .Poor ∧
    ihk100.grade_for_points 30 = some .Fail ∧
    ihk100.grade_for_points 81 ≠ some .Good := by
  have hth : ∀ g : Grade, ihk100.thresholds g =
      (match g with
        | .VeryGood => (92 : ℚ)
        | .Good => 81
        | .Satisfactory => 67
        | .Sufficient => 50
        | .Poor => 30
        | .Fail => 0) := by
    intro g
    cases g <;>
      norm_num [ihk100, GradingScale.calculate_thresholds,
        GradeScaleType.values, IHK_BOUNDARIES, rround]
  refine ⟨hth, ?_, ?_, ?_, ?_, ?_, ?_⟩ <;>
    norm_num [GradingScale.grade_for_points, GradingScale.gradeOrder,
      List.find?, hth]
  decide

lemma update_promotes (s : GradingScale) (g : Grade) (v : ℚ) :
    (s.update_points_for_grade g v).scale_type.is_custom = true := by
  cases h : s.scale_type <;>
    simp [GradingScale.update_points_for_grade, GradeScaleType.is_custom,
      GradeScaleType.to_custom, h]

lemma update_frame (s : GradingScale) (g g' : Grade) (v : ℚ)
    (h : g' ≠ g) :
    (s.update_points_for_grade g v).thresholds g' = s.thresholds g' := by
  simp [GradingScale.update_points_for_grade, h]

lemma increment_eq_update (s : GradingScale) (g : Grade) :
    s.increment_points_for_grade g =
      s.update_points_for_grade g
        (if s.is_using_half_points then s.thresholds g + 1/2
          else s.thresholds g + 1) := rfl

lemma decrement_eq_update (s : GradingScale) (g : Grade) :
    s.decrement_points_for_grade g =
      s.update_points_for_grade g
        (if s.is_using_half_points then s.thresholds g - 1/2
          else s.thresholds g - 1) := rfl

/-- C2: a manual threshold increment or decrement on a standard scale
promotes the scale type to Custom and changes no other grade's threshold;
on a fresh IHK scale at 100 points, incrementing Satisfactory stores 68
while the thresholds of VeryGood and Good stay 92 and 81. -/
theorem C2_manual_edit_promotes_to_custom_and_frames
    (s : GradingScale) (g : Grade) (_hs : s.scale_type.is_standard = true) :
    ((s.increment_points_for_grade g).scale_type.is_custom = true ∧
      ∀ g' : Grade, g' ≠ g →
        (s.increment_points_for_grade g).thresholds g' = s.thresholds g') ∧
    ((s.decrement_points_for_grade g).scale_type.is_custom = true ∧
      ∀ g' : Grade, g' ≠ g →
        (s.decrement_points_for_grade g).thresholds g' = s.thresholds g') ∧
    (ihk100.increment_points_for_grade .Satisfactory).thresholds
        .Satisfactory = 68 ∧
    (ihk100.increment_points_for_grade .Satisfactory).thresholds
        .VeryGood = 92 ∧
    (ihk100.increment_points_for_grade .Satisfactory).thresholds
        .Good = 81 ∧
    (ihk100.increment_points_for_grade .Satisfactory).scale_type.is_custom
        = true := by
  refine ⟨⟨?_, ?_⟩, ⟨?_, ?_⟩, ?_, ?_, ?_, ?_⟩
  · rw [increment_eq_update]; exact update_promotes ..
  · intro g' h
    rw [increment_eq_update]; exact update_frame _ _ _ _ h
  · rw [decrement_eq_update]; exact update_promotes ..
  · intro g' h
    rw [decrement_eq_update]; exact update_frame _ _ _ _ h
  · norm_num [increment_eq_update, GradingScale.update_points_for_grade,
      GradingScale.is_using_half_points, ihk100,
      GradingScale.calculate_thresholds, GradeScaleType.values,
      IHK_BOUNDARIES, rround]
  · norm_num [increment_eq_update, GradingScale.update_points_for_grade,
      GradingScale.is_using_half_points, ihk100,
      GradingScale.calculate_thresholds, GradeScaleType.values,
      IHK_BOUNDARIES, rround]
    decide
  · norm_num [increment_eq_update, GradingScale.update_points_for_grade,
      GradingScale.is_using_half_points, ihk100,
      GradingScale.calculate_thresholds, GradeScaleType.values,
      IHK_BOUNDARIES, rround]
    decide
  · rw [increment_eq_update]; exact update_promotes ..

theorem C2_witness :
    (ihk100.increment_points_for_grade .Satisfactory).thresholds
        .VeryGood = ihk100.thresholds .VeryGood ∧
    (ihk100.decrement_points_for_grade .Satisfactory).scale_type.is_custom
        = true :=
  ⟨(C2_manual_edit_promotes_to_custom_and_frames ihk100 .Satisfactory
      rfl).1.2 .VeryGood (by decide),
    (C2_manual_edit_promotes_to_custom_and_frames ihk100 .Satisfactory
      rfl).2.1.1⟩

/-- C3 fails as stated: on the IHK scale with maxPoints = 1 (a positive
maxPoints), all thresholds down to Sufficient round up to 1, so
grade_for_points(1) returns Poor (Grade 5), not VeryGood (Grade 1). -/
theorem C3_counterexample :
    (GradingScale.from_type .IHK 1).map (fun s => s.grade_for_points 1)
        = some (some .Poor) ∧
    Grade.Poor ≠ Grade.VeryGood := by
  constructor
  · rw [GradingScale.from_type, if_neg (by norm_num)]
    norm_num [GradingScale.grade_for_points, GradingScale.gradeOrder,
      List.find?, GradingScale.calculate_thresholds, GradeScaleType.values,
      IHK_BOUNDARIES, rround]
  · decide

/-- C3 amended: for every standard scale kind and every maxPoints ≥ 7,
grade_for_points(maxPoints) returns Grade 1 (VeryGood).  (For small
positive maxPoints the rounded threshold of Grade 1 can reach maxPoints
itself, which is then not strictly exceeded.) -/
theorem C3_amended (t : GradeScaleType) (m : ℚ) (s : GradingScale)
    (ht : t.is_standard = true) (hm : 7 ≤ m)
    (hs : GradingScale.from_type t m = some s) :
    s.grade_for_points m = some .VeryGood := by
  rw [GradingScale.from_type, if_neg (by linarith)] at hs
  simp only [Option.some.injEq] at hs
  subst hs
  have hlt : GradingScale.calculate_thresholds t m .VeryGood < m := by
    have hfloor : ∀ p : ℚ, 0 ≤ p → p * m + 1/2 < m →
        GradeScaleType.values t .VeryGood = p →
        GradingScale.calculate_thresholds t m .VeryGood < m := by
      intro p hp hsmall hval
      simp only [GradingScale.calculate_thresholds, hval]
      rw [rround, if_pos (by positivity)]
      have hfl := Int.floor_le (p * m + 1/2)
      calc ((⌊p * m + 1/2⌋ : ℤ) : ℚ) ≤ p * m + 1/2 := hfl
        _ < m := hsmall
    cases t with
    | IHK =>
      exact hfloor (92/100) (by norm_num) (by linarith)
        (by norm_num [GradeScaleType.values, IHK_BOUNDARIES])
    | TECHNIKER =>
      exact hfloor (85/100) (by norm_num) (by linarith)
        (by norm_num [GradeScaleType.values, TECHNIKER_BOUNDARIES])
    | LINEAR =>
      exact hfloor (87/100) (by norm_num) (by linarith)
        (by norm_num [GradeScaleType.values, LINEAR_BOUNDARIES])
    | Custom v => simp [GradeScaleType.is_standard] at ht
  simp only [GradingScale.grade_for_points, GradingScale.gradeOrder]
  exact List.find?_cons_of_pos _ (decide_eq_true hlt)

theorem C3_amended_witness :
    GradingScale.grade_for_points
      { scale_type := .IHK
        total_points := 7
        thresholds := GradingScale.calculate_thresholds .IHK 7
        use_half_points := false } 7 = some .VeryGood :=
  C3_amended .IHK 7 _ rfl (by norm_num)
    (by rw [GradingScale.from_type, if_neg (by norm_num)])

lemma rround_mono {x y : ℚ} (h : x ≤ y) : rround x ≤ rround y := by
  unfold rround
  split_ifs with hx hy hy
  · exact Int.floor_le_floor (by linarith)
  · exact absurd (hx.trans h) hy
  · have h1 : (0:ℤ) ≤ ⌊-x + 1/2⌋ := by
      rw [Int.le_floor]
      push_cast
      linarith [not_le.mp hx]
    have h2 : (0:ℤ) ≤ ⌊y + 1/2⌋ := by
      rw [Int.le_floor]
      push_cast
      linarith
    omega
  · exact neg_le_neg (Int.floor_le_floor (by linarith))

lemma values_mono (t : GradeScaleType) (ht : t.is_standard = true) :
    ∀ g g' : Grade, g.to_number ≤ g'.to_number →
      t.values g' ≤ t.values g := by
  intro g g' h
  cases t with
  | Custom v => simp [GradeScaleType.is_standard] at ht
  | IHK =>
    cases g <;> cases g' <;>
      norm_num [Grade.to_number, GradeScaleType.values,
        IHK_BOUNDARIES] at h ⊢
  | TECHNIKER =>
    cases g <;> cases g' <;>
      norm_num [Grade.to_number, GradeScaleType.values,
        TECHNIKER_BOUNDARIES] at h ⊢
  | LINEAR =>
    cases g <;> cases g' <;>
      norm_num [Grade.to_number, GradeScaleType.values,
        LINEAR_BOUNDARIES] at h ⊢

/-- C4: for every standard scale kind and every positive maxPoints, the
recomputed thresholds round(pct * maxPoints) are non-increasing as the
grade worsens from Grade 1 to Grade 6, and the Grade 6 threshold is 0. -/
theorem C4_thresholds_monotone_and_fail_zero
    (t : GradeScaleType) (m : ℚ)
    (ht : t.is_standard = true) (hm : 0 < m) :
    (∀ g g' : Grade, g.to_number ≤ g'.to_number →
      GradingScale.calculate_thresholds t m g' ≤
        GradingScale.calculate_thresholds t m g) ∧
    GradingScale.calculate_thresholds t m .Fail = 0 := by
  constructor
  · intro g g' h
    have hv := values_mono t ht g g' h
    simp only [GradingScale.calculate_thresholds]
    exact_mod_cast rround_mono (mul_le_mul_of_nonneg_right hv hm.le)
  · have hz : t.values .Fail = 0 := by
      cases t with
      | Custom v => simp [GradeScaleType.is_standard] at ht
      | IHK => norm_num [GradeScaleType.values, IHK_BOUNDARIES]
      | TECHNIKER => norm_num [GradeScaleType.values, TECHNIKER_BOUNDARIES]
      | LINEAR => norm_num [GradeScaleType.values, LINEAR_BOUNDARIES]
    norm_num [GradingScale.calculate_thresholds, hz, rround]

theorem C4_witness :
    (GradingScale.calculate_thresholds .IHK 100 .Good ≤
      GradingScale.calculate_thresholds .IHK 100 .VeryGood) ∧
    GradingScale.calculate_thresholds .IHK 100 .Fail = 0 :=
  ⟨(C4_thresholds_monotone_and_fail_zero .IHK 100 rfl (by norm_num)).1
      .VeryGood .Good (by norm_num [Grade.to_number]),
    (C4_thresholds_monotone_and_fail_zero .IHK 100 rfl (by norm_num)).2⟩

/-- `Student` (students.rs). -/
structure Student : Type where
  name : String
  points : ℚ

namespace Student

/-- `Student::total` (students.rs). -/
def total (s : Student) : ℚ :=
  s.points

/-- `Student::update_points` (students.rs). -/
def update_points (s : Student) (new_value : ℚ) : Student :=
  { s with points := new_value }

/-- `Student::grade` (students.rs): fallback to `Fail` when
`grade_for_points` returns `None`. -/
def grade (st : Student) (scale : GradingScale) : Grade :=
  (scale.grade_for_points st.points).getD .Fail

end Student

/-- `StudentList` (students.rs). -/
structure StudentList : Type where
  course : String
  students : List Student

/-- The effect of `get_student_mut(name)` (students.rs) followed by an
in-place edit `f` of the student found: the first student with a matching
name is replaced; an absent name leaves the list unchanged. -/
def update_first_student (l : List Student) (name : String)
    (f : Student → Student) : List Student :=
  match l with
  | [] => []
  | st :: rest =>
    if st.name = name then f st :: rest
    else st :: update_first_student rest name f

/-- `ExamResultTableRowData` (ui/exam_result_table.rs). -/
structure ExamResultTableRowData : Type where
  name : String
  points : ℚ
  percentage : ℚ
  grade : ℕ

/-- `Model` (mod.rs). -/
structure Model : Type where
  scale : GradingScale
  student_list : StudentList

namespace Model

/-- The `ModelAction::IncrementStudentPoints(name)` arm of `Model::update`
(mod.rs): the new value is applied only when it does not exceed the
scale's maximum points; an absent name is a no-op. -/
def increment_student_points (m : Model) (name : String) : Model :=
  { m with
    student_list :=
      { m.student_list with
        students :=
          update_first_student m.student_list.students name fun student =>
            let new_value :=
              if m.scale.is_using_half_points then student.total + 1/2
              else student.total + 1
            if new_value ≤ m.scale.total_points then
              student.update_points new_value
            else student } }

/-- The `ModelAction::DecrementStudentPoints(name)` arm of `Model::update`
(mod.rs): same upper-bound check as the increment, no lower bound. -/
def decrement_student_points (m : Model) (name : String) : Model :=
  { m with
    student_list :=
      { m.student_list with
        students :=
          update_first_student m.student_list.students name fun student =>
            let new_value :=
              if m.scale.is_using_half_points then student.total - 1/2
              else student.total - 1
            if new_value ≤ m.scale.total_points then
              student.update_points new_value
            else student } }

/-- `Model::get_student_data` (mod.rs): a row per student; the grade
number falls back to 0 when `grade_for_points` returns `None`. -/
def get_student_data (m : Model) : List ExamResultTableRowData :=
  m.student_list.students.map fun student =>
    { name := student.name
      points := student.total
      percentage :=
        GradingScale.percentage_for_points student.total m.scale.total_points
      grade :=
        match m.scale.grade_for_points student.total with
        | some grade => grade.to_number
        | none => 0 }

/-- `Model::grade_distribution` (mod.rs): a HashMap<u8, usize> built with
`entry(grade).and_modify(counter += 1).or_insert(0)`; an absent key is
modelled as `none`. -/
def grade_distribution (m : Model) : ℕ → Option ℕ :=
  m.student_list.students.foldl
    (fun counts student =>
      let g := (student.grade m.scale).to_number
      fun key =>
        if key = g then
          match counts g with
          | some c => some (c + 1)
          | none => some 0
        else counts key)
    (fun _ => none)

/-- `Model::grade_average` (mod.rs): iterates the distribution's entries
keeping grades in 1..=6 (the two sums do not depend on the HashMap
iteration order, so the keys are enumerated in increasing order).  An
empty roster gives 0/0, modelled as 0 (Rust: NaN). -/
def grade_average (m : Model) : ℚ :=
  let counts := m.grade_distribution
  let entries := (List.range 7).filterMap fun grade =>
    if 1 ≤ grade ∧ grade ≤ 6 then
      (counts grade).map fun c => (grade, c)
    else none
  let total_count : ℕ := (entries.map fun e => e.2).sum
  let grades_weighted : ℕ := (entries.map fun e => e.1 * e.2).sum
  round_dp ((grades_weighted : ℚ) / (total_count : ℚ)) 2

end Model

/-- A four-student roster on the fresh IHK scale at 100 points whose
assigned grades are 1, 1, 2, 6. -/
def bugModel : Model :=
  { scale := ihk100
    student_list :=
      { course := "class"
        students := [⟨"A", 95⟩, ⟨"B", 93⟩, ⟨"C", 82⟩, ⟨"D", 10⟩] } }

/-- C5 (code bug): on a roster with grades 1, 1, 2, 6 the distribution
built with `or_insert(0)` counts each grade's first student as 0, giving
{1:1, 2:0, 6:0}, and the average comes out 1, not the specified 2.5. -/
theorem C5_distribution_offbyone_average_wrong :
    bugModel.grade_distribution 1 = some 1 ∧
    bugModel.grade_distribution 2 = some 0 ∧
    bugModel.grade_distribution 6 = some 0 ∧
    bugModel.grade_average = 1 ∧ (1 : ℚ) ≠ 5/2 := by
  have h95 : ihk100.grade_for_points 95 = some .VeryGood := by
    norm_num [GradingScale.grade_for_points, GradingScale.gradeOrder,
      List.find?, ihk100, GradingScale.calculate_thresholds,
      GradeScaleType.values, IHK_BOUNDARIES, rround]
  have h93 : ihk100.grade_for_points 93 = some .VeryGood := by
    norm_num [GradingScale.grade_for_points, GradingScale.gradeOrder,
      List.find?, ihk100, GradingScale.calculate_thresholds,
      GradeScaleType.values, IHK_BOUNDARIES, rround]
  have h82 : ihk100.grade_for_points 82 = some .Good := by
    norm_num [GradingScale.grade_for_points, GradingScale.gradeOrder,
      List.find?, ihk100, GradingScale.calculate_thresholds,
      GradeScaleType.values, IHK_BOUNDARIES, rround]
  have h10 : ihk100.grade_for_points 10 = some .Fail := by
    norm_num [GradingScale.grade_for_points, GradingScale.gradeOrder,
      List.find?, ihk100, GradingScale.calculate_thresholds,
      GradeScaleType.values, IHK_BOUNDARIES, rround]
  have hdist : ∀ key : ℕ, bugModel.grade_distribution key =
      (fun key => if key = 1 then some 1 else if key = 2 then some 0
        else if key = 6 then some 0 else none) key := by
    intro key
    simp only [Model.grade_distribution, bugModel, List.foldl,
      Student.grade, Student.total, h95, h93, h82, h10, Option.getD,
      Grade.to_number]
    by_cases h1 : key = 1 <;> by_cases h2 : key = 2 <;>
      by_cases h6 : key = 6 <;> simp [h1, h2, h6]
  refine ⟨hdist 1, hdist 2, hdist 6, ?_, by norm_num⟩
  simp only [Model.grade_average]
  norm_num [hdist, List.range_succ, List.filterMap, round_dp, rround]

lemma update_first_student_no_match (l : List Student) (name : String)
    (f : Student → Student) (h : ∀ st ∈ l, st.name ≠ name) :
    update_first_student l name f = l := by
  induction l with
  | nil => rfl
  | cons st rest ih =>
    simp only [update_first_student]
    rw [if_neg (h st (List.mem_cons_self st rest)),
      ih fun st' hm => h st' (List.mem_cons_of_mem st hm)]

lemma update_first_student_forall₂ (R : Student → Student → Prop)
    (name : String) (f : Student → Student)
    (hid : ∀ st, R st st) (hf : ∀ st, R st (f st)) :
    ∀ l : List Student, List.Forall₂ R l (update_first_student l name f) := by
  intro l
  induction l with
  | nil => exact List.Forall₂.nil
  | cons st rest ih =>
    simp only [update_first_student]
    by_cases h : st.name = name
    · rw [if_pos h]
      exact List.Forall₂.cons (hf st) (List.forall₂_same.mpr fun x _ => hid x)
    · rw [if_neg h]
      exact List.Forall₂.cons (hid st) ih

/-- A one-student roster with Alice at 0 points on the IHK scale at 100
points. -/
def aliceModel : Model :=
  { scale := ihk100
    student_list := { course := "class", students := [⟨"Alice", 0⟩] } }

/-- C6 fails as stated: decrementing Alice at 0 points stores -1, outside
[0, maxPoints] — the code checks only the upper bound. -/
theorem C6_counterexample :
    (aliceModel.decrement_student_points "Alice").student_list.students.map
        Student.points = [-1] ∧
    ¬(0 ≤ (-1 : ℚ)) := by
  constructor
  · norm_num [Model.decrement_student_points, aliceModel,
      update_first_student, Student.total, Student.update_points,
      GradingScale.is_using_half_points, ihk100]
  · norm_num

/-- C6 amended: adjusting an absent name is a no-op; an increment is
applied only when the new value does not exceed scale.maxPoints (so a
student whose points + step would exceed maxPoints is left unchanged);
a decrement obeys the same upper-bound check but no lower bound, so
points can go below 0. -/
theorem C6_adjust_points_upper_bound_only (m : Model) (name : String) :
    ((∀ st ∈ m.student_list.students, st.name ≠ name) →
      m.increment_student_points name = m ∧
      m.decrement_student_points name = m) ∧
    List.Forall₂ (fun st st' : Student => st'.name = st.name ∧
        (st' = st ∨ (st'.points = st.points +
            (if m.scale.is_using_half_points then (1:ℚ)/2 else 1) ∧
          st'.points ≤ m.scale.total_points)))
      m.student_list.students
      (m.increment_student_points name).student_list.students ∧
    List.Forall₂ (fun st st' : Student => st'.name = st.name ∧
        (st' = st ∨ (st'.points = st.points -
            (if m.scale.is_using_half_points then (1:ℚ)/2 else 1) ∧
          st'.points ≤ m.scale.total_points)))
      m.student_list.students
      (m.decrement_student_points name).student_list.students := by
  refine ⟨?_, ?_, ?_⟩
  · intro h
    constructor
    · simp only [Model.increment_student_points]
      rw [update_first_student_no_match _ _ _ h]
    · simp only [Model.decrement_student_points]
      rw [update_first_student_no_match _ _ _ h]
  · simp only [Model.increment_student_points]
    apply update_first_student_forall₂
    · exact fun st => ⟨rfl, Or.inl rfl⟩
    · intro st
      dsimp only [Student.total, Student.update_points]
      split_ifs with hhalf hle hle
      · exact ⟨rfl, Or.inr ⟨rfl, hle⟩⟩
      · exact ⟨rfl, Or.inl rfl⟩
      · exact ⟨rfl, Or.inr ⟨rfl, hle⟩⟩
      · exact ⟨rfl, Or.inl rfl⟩
  · simp only [Model.decrement_student_points]
    apply update_first_student_forall₂
    · exact fun st => ⟨rfl, Or.inl rfl⟩
    · intro st
      dsimp only [Student.total, Student.update_points]
      split_ifs with hhalf hle hle
      · exact ⟨rfl, Or.inr ⟨rfl, hle⟩⟩
      · exact ⟨rfl, Or.inl rfl⟩
      · exact ⟨rfl, Or.inr ⟨rfl, hle⟩⟩
      · exact ⟨rfl, Or.inl rfl⟩

theorem C6_amended_witness :
    Model.increment_student_points
        { scale := ihk100
          student_list := { course := "class", students := [] } } "Bob" =
      { scale := ihk100
        student_list := { course := "class", students := [] } } :=
  ((C6_adjust_points_upper_bound_only _ "Bob").1 (by simp)).1

/-- A one-student roster with Zoe at 0 points on the IHK scale at 100
points; grade_for_points(0) is None. -/
def zoeModel : Model :=
  { scale := ihk100
    student_list := { course := "class", students := [⟨"Zoe", 0⟩] } }

/-- C9 fails as stated: for a student whose points do not exceed even the
worst grade's threshold, `Model::get_student_data` reports grade number 0,
not the worst grade 6 (only `Student::grade` falls back to Fail). -/
theorem C9_counterexample :
    GradingScale.grade_for_points ihk100 0 = none ∧
    zoeModel.get_student_data.map ExamResultTableRowData.grade = [0] ∧
    (0 : ℕ) ≠ 6 := by
  have hnone : GradingScale.grade_for_points ihk100 0 = none := by
    norm_num [GradingScale.grade_for_points, GradingScale.gradeOrder,
      List.find?, ihk100, GradingScale.calculate_thresholds,
      GradeScaleType.values, IHK_BOUNDARIES, rround]
  refine ⟨hnone, ?_, by norm_num⟩
  simp [Model.get_student_data, zoeModel, Student.total, hnone]

/-- C9 amended: when grade_for_points returns None for a student,
`Student::grade` (used by the grade distribution) falls back to the worst
grade Fail, but the exam-result view `get_student_data` reports grade
number 0 for that student. -/
theorem C9_fallback_fail_vs_zero (m : Model) (i : ℕ)
    (hi : i < m.student_list.students.length)
    (hnone : m.scale.grade_for_points
      (m.student_list.students[i]).points = none) :
    (m.student_list.students[i]).grade m.scale = Grade.Fail ∧
    ∃ hj : i < m.get_student_data.length,
      (m.get_student_data[i]).grade = 0 := by
  constructor
  · simp [Student.grade, hnone]
  · have hlen : m.get_student_data.length =
        m.student_list.students.length := by
      simp [Model.get_student_data]
    refine ⟨by rw [hlen]; exact hi, ?_⟩
    simp [Model.get_student_data, Student.total, hnone]

theorem C9_amended_witness :
    Student.grade ⟨"Zoe", 0⟩ ihk100 = Grade.Fail := by
  have h := C9_fallback_fail_vs_zero zoeModel 0 (by norm_num [zoeModel])
    (by
      norm_num [zoeModel, ihk100, GradingScale.grade_for_points,
        GradingScale.gradeOrder, List.find?,
        GradingScale.calculate_thresholds, GradeScaleType.values,
        IHK_BOUNDARIES, rround])
  exact h.1

/-- C7 fails as stated: toggle_half_points calls recalculate, which
recomputes the thresholds from the definition's stored percentages; on a
Custom scale whose thresholds were manually edited this discards the
edit: after incrementing Satisfactory on a fresh IHK scale at 100 points
(threshold 68), toggling half points resets it to 67. -/
theorem C7_counterexample :
    (ihk100.increment_points_for_grade .Satisfactory).thresholds
        .Satisfactory = 68 ∧
    (ihk100.increment_points_for_grade
        .Satisfactory).toggle_half_points.thresholds .Satisfactory = 67 ∧
    (67 : ℚ) ≠ 68 := by
  refine ⟨?_, ?_, by norm_num⟩
  · norm_num [increment_eq_update, GradingScale.update_points_for_grade,
      GradingScale.is_using_half_points, ihk100,
      GradingScale.calculate_thresholds, GradeScaleType.values,
      IHK_BOUNDARIES, rround]
  · norm_num [GradingScale.toggle_half_points, GradingScale.recalculate,
      increment_eq_update, GradingScale.update_points_for_grade,
      GradingScale.is_using_half_points, GradeScaleType.is_custom,
      GradeScaleType.to_custom, ihk100, GradingScale.calculate_thresholds,
      GradeScaleType.values, IHK_BOUNDARIES, rround]

/-- C7 amended: toggle_half_points flips the use_half_points flag and
recomputes the thresholds from the stored percentages; every threshold
entry is unchanged whenever the thresholds already equal the recomputed
values (as on any scale without manual edits), but a manual edit is
discarded by the recomputation. -/
theorem C7_toggle_flips_flag_recomputes_thresholds (s : GradingScale)
    (h : s.thresholds =
      GradingScale.calculate_thresholds s.scale_type s.total_points) :
    s.toggle_half_points.use_half_points = !s.use_half_points ∧
    s.toggle_half_points.thresholds = s.thresholds := by
  constructor
  · rfl
  · simp only [GradingScale.toggle_half_points, GradingScale.recalculate]
    exact h.symm

theorem C7_amended_witness :
    ihk100.toggle_half_points.use_half_points = !ihk100.use_half_points ∧
    ihk100.toggle_half_points.thresholds = ihk100.thresholds :=
  C7_toggle_flips_flag_recomputes_thresholds ihk100 rfl

/-- C8 fails as stated: on the IHK scale with maxPoints = 1, the Grade 1
threshold rounds to 1 and percentage_for_points(1, 1) = 1, which differs
from the defining percentage 0.92 by 0.08 > 0.01. -/
theorem C8_counterexample :
    |GradingScale.percentage_for_points
        (GradingScale.calculate_thresholds .IHK 1 .VeryGood) 1 -
      GradeScaleType.values .IHK .VeryGood| = 8/100 ∧
    ¬((8 : ℚ)/100 ≤ 1/100) := by
  constructor
  · have h1 : GradingScale.percentage_for_points
        (GradingScale.calculate_thresholds .IHK 1 .VeryGood) 1 = 1 := by
      norm_num [GradingScale.percentage_for_points,
        GradingScale.calculate_thresholds, GradeScaleType.values,
        IHK_BOUNDARIES, round_dp, rround]
    have h2 : GradeScaleType.values .IHK .VeryGood = 92/100 := rfl
    rw [h1, h2, abs_of_nonneg (by norm_num)]
    norm_num
  · norm_num

lemma rround_err_nonneg {x : ℚ} (hx : 0 ≤ x) :
    |(rround x : ℚ) - x| ≤ 1/2 := by
  rw [rround, if_pos hx]
  have h1 : ((⌊x + 1/2⌋ : ℤ) : ℚ) ≤ x + 1/2 := Int.floor_le _
  have h2 : x + 1/2 - 1 < ((⌊x + 1/2⌋ : ℤ) : ℚ) := Int.sub_one_lt_floor _
  rw [abs_le]
  constructor <;> linarith

lemma rround_nonneg {x : ℚ} (hx : 0 ≤ x) : 0 ≤ rround x := by
  rw [rround, if_pos hx]
  exact Int.floor_nonneg.mpr (by linarith)

lemma round_dp_err {y : ℚ} (hy : 0 ≤ y) : |round_dp y 2 - y| ≤ 1/200 := by
  have h : |(rround (y * 10 ^ 2) : ℚ) - y * 10 ^ 2| ≤ 1/2 :=
    rround_err_nonneg (by positivity)
  have heq : round_dp y 2 - y =
      ((rround (y * 10 ^ 2) : ℚ) - y * 10 ^ 2) / 10 ^ 2 := by
    rw [round_dp]
    field_simp
    ring
  rw [heq, abs_div, abs_of_nonneg (by norm_num : (0:ℚ) ≤ 10 ^ 2),
    div_le_iff₀ (by norm_num : (0:ℚ) < 10 ^ 2)]
  calc |(rround (y * 10 ^ 2) : ℚ) - y * 10 ^ 2| ≤ 1/2 := h
    _ = 1/200 * 10 ^ 2 := by norm_num

lemma pct_roundtrip {p m : ℚ} (hp : 0 ≤ p) (hm : 100 ≤ m) :
    |GradingScale.percentage_for_points ((rround (p * m) : ℤ) : ℚ) m - p|
      ≤ 1/100 := by
  have hm0 : (0:ℚ) < m := by linarith
  have hpm : 0 ≤ p * m := mul_nonneg hp hm0.le
  have ht : |((rround (p * m) : ℤ) : ℚ) - p * m| ≤ 1/2 :=
    rround_err_nonneg hpm
  have ht0 : (0:ℚ) ≤ ((rround (p * m) : ℤ) : ℚ) := by
    exact_mod_cast rround_nonneg hpm
  set t : ℚ := ((rround (p * m) : ℤ) : ℚ) with htdef
  have hx0 : 0 ≤ t / m := div_nonneg ht0 hm0.le
  have h1 : |round_dp (t / m) 2 - t / m| ≤ 1/200 := round_dp_err hx0
  have h2 : |t / m - p| ≤ 1/200 := by
    have heq : t / m - p = (t - p * m) / m := by
      field_simp
      ring
    rw [heq, abs_div, abs_of_pos hm0, div_le_iff₀ hm0]
    calc |t - p * m| ≤ 1/2 := ht
      _ ≤ 1/200 * m := by linarith
  have h3 := abs_sub_le (round_dp (t / m) 2) (t / m) p
  simp only [GradingScale.percentage_for_points]
  linarith

/-- C8 amended: for every standard scale kind, every maxPoints ≥ 100 and
every grade, percentage_for_points(thresholds[g], maxPoints) differs from
the defining percentage of g by at most 0.01 on unedited thresholds.  (For
smaller maxPoints the rounding error 0.5/maxPoints can exceed the 0.01
tolerance.) -/
theorem C8_percentage_roundtrip (t : GradeScaleType) (m : ℚ) (g : Grade)
    (ht : t.is_standard = true) (hm : 100 ≤ m) :
    |GradingScale.percentage_for_points
        (GradingScale.calculate_thresholds t m g) m - t.values g|
      ≤ 1/100 := by
  have hp : 0 ≤ t.values g := by
    cases t with
    | Custom v => simp [GradeScaleType.is_standard] at ht
    | IHK => cases g <;> norm_num [GradeScaleType.values, IHK_BOUNDARIES]
    | TECHNIKER =>
      cases g <;> norm_num [GradeScaleType.values, TECHNIKER_BOUNDARIES]
    | LINEAR =>
      cases g <;> norm_num [GradeScaleType.values, LINEAR_BOUNDARIES]
  simpa [GradingScale.calculate_thresholds] using pct_roundtrip hp hm

theorem C8_amended_witness :
    |GradingScale.percentage_for_points
        (GradingScale.calculate_thresholds .IHK 100 .VeryGood) 100 -
      GradeScaleType.values .IHK .VeryGood| ≤ 1/100 :=
  C8_percentage_roundtrip .IHK 100 .VeryGood rfl (by norm_num)

/-- The scale states reachable through the engine's operations, starting
from `from_type`. -/
inductive ReachableScale : GradingScale → Prop
  | init (t : GradeScaleType) (m : ℚ) (s : GradingScale) :
      GradingScale.from_type t m = some s → ReachableScale s
  | set_total (s : GradingScale) (p : ℚ) :
      ReachableScale s → ReachableScale (s.set_total_points p)
  | toggle (s : GradingScale) :
      ReachableScale s → ReachableScale s.toggle_half_points
  | change (s : GradingScale) (t : GradeScaleType) :
      ReachableScale s → ReachableScale (s.change_scale_type t)
  | inc (s : GradingScale) (g : Grade) :
      ReachableScale s → ReachableScale (s.increment_points_for_grade g)
  | dec (s : GradingScale) (g : Grade) :
      ReachableScale s → ReachableScale (s.decrement_points_for_grade g)

lemma calculate_thresholds_int (t : GradeScaleType) (m : ℚ) (g : Grade) :
    ∃ k : ℤ, GradingScale.calculate_thresholds t m g = (k : ℚ) :=
  ⟨rround (t.values g * m), rfl⟩

/-- C10 corrected: every value ever stored in the thresholds map is a
whole number (an integer, possibly negative), under every sequence of
operations; with half points on, an increment of +0.5 on an integer
threshold k ≥ 0 stores k + 1, and a decrement of -0.5 on an integer
threshold k ≥ 1 stores k unchanged.  (At threshold 0 the half-point
decrement stores -1, not 0, since -0.5 rounds away from zero.) -/
theorem C10_thresholds_whole_numbers :
    (∀ s : GradingScale, ReachableScale s →
      ∀ g : Grade, ∃ k : ℤ, s.thresholds g = (k : ℚ)) ∧
    (∀ (s : GradingScale) (g : Grade) (k : ℤ),
      s.use_half_points = true → s.thresholds g = (k : ℚ) → 0 ≤ k →
      (s.increment_points_for_grade g).thresholds g = ((k + 1 : ℤ) : ℚ)) ∧
    (∀ (s : GradingScale) (g : Grade) (k : ℤ),
      s.use_half_points = true → s.thresholds g = (k : ℚ) → 1 ≤ k →
      (s.decrement_points_for_grade g).thresholds g = (k : ℚ)) := by
  refine ⟨?_, ?_, ?_⟩
  · intro s hs
    induction hs with
    | init t m s h =>
      intro g
      rw [GradingScale.from_type] at h
      by_cases hm : m ≤ 0
      · rw [if_pos hm] at h
        simp at h
      · rw [if_neg hm] at h
        simp only [Option.some.injEq] at h
        subst h
        exact calculate_thresholds_int t m g
    | set_total s p _ _ =>
      intro g
      exact calculate_thresholds_int s.scale_type p g
    | toggle s _ _ =>
      intro g
      exact calculate_thresholds_int s.scale_type s.total_points g
    | change s t _ _ =>
      intro g
      exact calculate_thresholds_int t s.total_points g
    | inc s g' _ ih =>
      intro g
      by_cases hgg : g = g'
      · subst hgg
        refine ⟨rround (if s.is_using_half_points then s.thresholds g + 1/2
          else s.thresholds g + 1), ?_⟩
        simp [increment_eq_update, GradingScale.update_points_for_grade]
      · obtain ⟨k, hk⟩ := ih g
        refine ⟨k, ?_⟩
        rw [increment_eq_update, update_frame _ _ _ _ hgg]
        exact hk
    | dec s g' _ ih =>
      intro g
      by_cases hgg : g = g'
      · subst hgg
        refine ⟨rround (if s.is_using_half_points then s.thresholds g - 1/2
          else s.thresholds g - 1), ?_⟩
        simp [decrement_eq_update, GradingScale.update_points_for_grade]
      · obtain ⟨k, hk⟩ := ih g
        refine ⟨k, ?_⟩
        rw [decrement_eq_update, update_frame _ _ _ _ hgg]
        exact hk
  · intro s g k hhalf hthr hk
    rw [increment_eq_update]
    simp only [GradingScale.update_points_for_grade,
      GradingScale.is_using_half_points, hhalf, if_true, hthr, if_pos rfl]
    have hx : (0:ℚ) ≤ (k : ℚ) + 1/2 := by
      have : (0:ℚ) ≤ (k : ℚ) := by exact_mod_cast hk
      linarith
    rw [rround, if_pos hx]
    have h1 : (k : ℚ) + 1/2 + 1/2 = ((k + 1 : ℤ) : ℚ) := by
      push_cast
      ring
    rw [h1, Int.floor_intCast]
  · intro s g k hhalf hthr hk
    rw [decrement_eq_update]
    simp only [GradingScale.update_points_for_grade,
      GradingScale.is_using_half_points, hhalf, if_true, hthr, if_pos rfl]
    have hk1 : (1:ℚ) ≤ (k : ℚ) := by exact_mod_cast hk
    rw [rround, if_pos (by linarith)]
    have h1 : (k : ℚ) - 1/2 + 1/2 = ((k : ℤ) : ℚ) := by
      ring
    rw [h1, Int.floor_intCast]

/-- C10 fails as stated for the half-point decrement at threshold 0: on
the fresh IHK scale at 100 points with half points toggled on, the Fail
threshold is the integer 0 yet decrementing it stores -1 (still a whole
number), not 0. -/
theorem C10_counterexample :
    ihk100.toggle_half_points.use_half_points = true ∧
    ihk100.toggle_half_points.thresholds .Fail = 0 ∧
    (ihk100.toggle_half_points.decrement_points_for_grade
        .Fail).thresholds .Fail = -1 ∧
    (-1 : ℚ) ≠ 0 := by
  refine ⟨rfl, ?_, ?_, by norm_num⟩
  · norm_num [GradingScale.toggle_half_points, GradingScale.recalculate,
      ihk100, GradingScale.calculate_thresholds, GradeScaleType.values,
      IHK_BOUNDARIES, rround]
  · norm_num [decrement_eq_update, GradingScale.update_points_for_grade,
      GradingScale.is_using_half_points, GradingScale.toggle_half_points,
      GradingScale.recalculate, ihk100, GradingScale.calculate_thresholds,
      GradeScaleType.values, IHK_BOUNDARIES, rround]

theorem C10_amended_witness :
    (∃ k : ℤ, ihk100.thresholds .VeryGood = (k : ℚ)) ∧
    (ihk100.toggle_half_points.increment_points_for_grade
        .Satisfactory).thresholds .Satisfactory = ((67 + 1 : ℤ) : ℚ) := by
  constructor
  · exact C10_thresholds_whole_numbers.1 ihk100
      (ReachableScale.init .IHK 100 ihk100 from_type_ihk100) .VeryGood
  · exact C10_thresholds_whole_numbers.2.1 ihk100.toggle_half_points
      .Satisfactory 67 rfl
      (by
        norm_num [GradingScale.toggle_half_points, GradingScale.recalculate,
          ihk100, GradingScale.calculate_thresholds, GradeScaleType.values,
          IHK_BOUNDARIES, rround])
      (by norm_num)
